import Mathlib

/-!
Verification of the EtherDelta exchange client (`api/etherdelta.py`):
a shallow embedding of its order model, off-chain signing protocol,
on-chain order tracker and argument-marshalling logic, with theorems
checking the specification's claims against it.

Machine integers are modelled as `Nat`; byte strings as `List Nat`
(each entry a byte value); external collaborators (the chain RPC, the
signer, SHA-256 and the HTTP relay) as explicit environment parameters.
-/

/-- Modelled from the spec: `Address` (in `api/__init__.py`, not under
`src/`) is an immutable 20-byte chain identifier with equality by value.
We carry the address as its numeric (big-endian) value. -/
structure Address where
  address : Nat
deriving DecidableEq, Repr

/-- Modelled from the spec: `Wad` (in `api/numeric.py`, not under `src/`)
is a fixed-point amount backed by an integer `value`, with equality and
ordering by the underlying integer. -/
structure Wad where
  value : Nat
deriving DecidableEq, Repr

/-- Modelled from the spec: `Receipt` (in `api/__init__.py`, not under
`src/`) is the opaque result of a successful transaction. -/
structure Receipt where
  transactionHash : Nat
deriving DecidableEq, Repr

/-- Source `OnChainOrder.__init__`: the five core order fields plus `nonce` and
`user` (the maker). -/
structure OnChainOrder where
  token_get : Address
  amount_get : Wad
  token_give : Address
  amount_give : Wad
  expires : Nat
  nonce : Nat
  user : Address
deriving DecidableEq, Repr

/-- Source `OffChainOrder.__init__`: the seven `OnChainOrder` fields plus the
ECDSA signature triple `(v, r, s)`; `r` and `s` are byte strings. -/
structure OffChainOrder where
  token_get : Address
  amount_get : Wad
  token_give : Address
  amount_give : Wad
  expires : Nat
  nonce : Nat
  user : Address
  v : Nat
  r : List Nat
  s : List Nat
deriving DecidableEq, Repr

/-- The dynamic value an order's `__eq__` may be compared against: an
`OnChainOrder`, an `OffChainOrder`, or any non-order Python object. -/
inductive PyObject where
  | onChain (o : OnChainOrder)
  | offChain (o : OffChainOrder)
  | nonOrder
deriving DecidableEq, Repr

/-- Source `OnChainOrder.__eq__`: field-by-field comparison over the seven
fields when `other` is an `OnChainOrder`, `False` otherwise. -/
def OnChainOrder.eqPy (self : OnChainOrder) : PyObject → Bool
  | .onChain o =>
      self.token_get == o.token_get &&
      self.amount_get == o.amount_get &&
      self.token_give == o.token_give &&
      self.amount_give == o.amount_give &&
      self.expires == o.expires &&
      self.nonce == o.nonce &&
      self.user == o.user
  | _ => false

/-- Source `OffChainOrder.__eq__`: field-by-field comparison over the ten
fields when `other` is an `OffChainOrder`, `False` otherwise. -/
def OffChainOrder.eqPy (self : OffChainOrder) : PyObject → Bool
  | .offChain o =>
      self.token_get == o.token_get &&
      self.amount_get == o.amount_get &&
      self.token_give == o.token_give &&
      self.amount_give == o.amount_give &&
      self.expires == o.expires &&
      self.nonce == o.nonce &&
      self.user == o.user &&
      self.v == o.v &&
      self.r == o.r &&
      self.s == o.s
  | _ => false

/-- A deterministic mixing step standing in for CPython's tuple-hash
combinator. Any function of the components serves the claims, which
concern hash EQUALITY of structurally equal orders. -/
def hashMix (h x : Nat) : Nat :=
  h * 1000003 + x

/-- Source `OnChainOrder.__hash__`: the hash of the 7-tuple of the order's
fields. Modelled from the spec for the component hashes: `Address` and
`Wad` are value objects, hashed by their underlying value. -/
def OnChainOrder.pyHash (o : OnChainOrder) : Nat :=
  [o.token_get.address, o.amount_get.value, o.token_give.address,
   o.amount_give.value, o.expires, o.nonce, o.user.address].foldl hashMix 5381

/-- Source `LogOrder.__init__`: a decoded `Order` event log entry. -/
structure LogOrder where
  tokenGet : Address
  amountGet : Wad
  tokenGive : Address
  amountGive : Wad
  expires : Nat
  nonce : Nat
  user : Address
deriving DecidableEq, Repr

/-- Source `LogOrder.to_order`: repackage the event fields as an `OnChainOrder`. -/
def LogOrder.to_order (l : LogOrder) : OnChainOrder :=
  { token_get := l.tokenGet
    amount_get := l.amountGet
    token_give := l.tokenGive
    amount_give := l.amountGive
    expires := l.expires
    nonce := l.nonce
    user := l.user }

/-- Big-endian byte encoding of `v` on exactly `n` bytes (the low
`8 * n` bits of `v`, most significant byte first). -/
def beBytes : Nat → Nat → List Nat
  | 0, _ => []
  | n + 1, v => beBytes n (v / 256) ++ [v % 256]

/-- Source `encode_uint256` in `place_order_offchain`: the ABI encoding of a
`uint256`, i.e. 32 bytes, big-endian. -/
def encode_uint256 (value : Nat) : List Nat :=
  beBytes 32 value

/-- Source `encode_address` in `place_order_offchain`: the ABI encoding of an
address (a 32-byte left-padded word) with the first 12 bytes dropped,
leaving 20 bytes. -/
def encode_address (a : Address) : List Nat :=
  (beBytes 32 a.address).drop 12

/-- The canonical signing message built in `place_order_offchain`
(lines 425-431): contract address, `token_get`, `amount_get`,
`token_give`, `amount_give`, `expires`, `nonce`, concatenated. -/
def canonicalMessage (contract token_get : Address) (amount_get : Wad)
    (token_give : Address) (amount_give : Wad) (expires nonce : Nat) : List Nat :=
  encode_address contract ++
  encode_address token_get ++
  encode_uint256 amount_get.value ++
  encode_address token_give ++
  encode_uint256 amount_give.value ++
  encode_uint256 expires ++
  encode_uint256 nonce

/-- The canonical message as the SPEC words it: each address written
directly on 20 big-endian bytes, each integer on 32 big-endian bytes,
in the same fixed order. Used to check `canonicalMessage` against the
spec's byte-layout description. -/
def specMessage (contract token_get : Address) (amount_get : Wad)
    (token_give : Address) (amount_give : Wad) (expires nonce : Nat) : List Nat :=
  beBytes 20 contract.address ++
  beBytes 20 token_get.address ++
  beBytes 32 amount_get.value ++
  beBytes 20 token_give.address ++
  beBytes 32 amount_give.value ++
  beBytes 32 expires ++
  beBytes 32 nonce

/-! ## Off-chain order placement (`EtherDelta.place_order_offchain`) -/

/-- Outcome of the HTTP POST to the relay: either the 15-second timeout
elapsed (in which case `requests.post` raises), or a response with a
status code and a body text arrived. -/
inductive PostResult where
  | timeout
  | response (status : Nat) (text : String)
deriving DecidableEq, Repr

/-- The Python exception escaping `place_order_offchain` when the relay
POST times out (`requests.exceptions.Timeout`). -/
inductive RelayErr where
  | timeoutRaised
deriving DecidableEq, Repr

/-- Environment of `place_order_offchain`: the contract's own address
(`self.address`), the sender account (`web3.eth.defaultAccount`), the
random nonce drawn by `random_nonce`, the SHA-256 digest function, the
external signer (`_eth_sign`, returning 65 signature bytes), and the
relay's reaction to the POST. -/
structure OffchainEnv where
  contractAddress : Address
  defaultAccount : Address
  nonce : Nat
  sha256 : List Nat → List Nat
  sign : List Nat → List Nat
  post : PostResult

/-- Whether `needle` occurs at the start of `hay`. -/
def leadsChars : List Char → List Char → Bool
  | [], _ => true
  | _ :: _, [] => false
  | a :: as, b :: bs => a == b && leadsChars as bs

/-- Whether `needle` occurs contiguously anywhere in `hay`. -/
def occursWithin (needle : List Char) : List Char → Bool
  | [] => leadsChars needle []
  | b :: bs => leadsChars needle (b :: bs) || occursWithin needle bs

/-- The success test on line 442: the literal substring `"success"`
(quotes included) occurring in the response body. -/
def containsSuccess (text : String) : Bool :=
  occursWithin ("\"success\"".data) text.data

/-- Lines 425-431: the SHA-256 digest of the concatenated byte message,
exactly as built in the source. -/
def place_order_offchain_digest (env : OffchainEnv) (token_get : Address)
    (amount_get : Wad) (token_give : Address) (amount_give : Wad)
    (expires : Nat) : List Nat :=
  env.sha256 (encode_address env.contractAddress ++
              encode_address token_get ++
              encode_uint256 amount_get.value ++
              encode_address token_give ++
              encode_uint256 amount_give.value ++
              encode_uint256 expires ++
              encode_uint256 env.nonce)

/-- Source `EtherDelta.place_order_offchain` (lines 392-442): hash, sign,
assemble the `OffChainOrder`, POST it to the relay; return the order if
the body contains `"success"`, `None` otherwise; a timeout raises. -/
def place_order_offchain (env : OffchainEnv) (token_get : Address)
    (amount_get : Wad) (token_give : Address) (amount_give : Wad)
    (expires : Nat) : Except RelayErr (Option OffChainOrder) :=
  let order_hash := place_order_offchain_digest env token_get amount_get token_give amount_give expires
  let signed := env.sign order_hash
  let r := signed.take 32
  let s := (signed.drop 32).take 32
  let v := signed.getD 64 0
  let off_chain_order : OffChainOrder :=
    { token_get := token_get, amount_get := amount_get,
      token_give := token_give, amount_give := amount_give,
      expires := expires, nonce := env.nonce,
      user := env.defaultAccount, v := v, r := r, s := s }
  match env.post with
  | .timeout => .error .timeoutRaised
  | .response _ text =>
      .ok (if containsSuccess text then some off_chain_order else none)

/-! ## On-chain order tracker (`_onchain_orders`, `active_onchain_orders`,
`place_order_onchain`) -/

/-- Environment of the tracker: the contract's cumulative-fill answer
for each order (`amountFilled` call) and the historical `Order` events
the lookback query returns. -/
structure ChainEnv where
  filled : OnChainOrder → Wad
  pastOrders : List LogOrder

/-- State `self._onchain_orders`: `None` before the first
`active_onchain_orders` call, afterwards the tracked set. A Python
`set` keyed by structural equality is modelled as a duplicate-free list
with `List.insert` (insertion of a present element is a no-op). -/
abbrev TrackerState := Option (List OnChainOrder)

/-- Observable side effects of `active_onchain_orders`, in order. -/
inductive TrackerAct where
  | subscribeOrders
  | fetchPastEvents (lookback : Nat)
deriving DecidableEq, Repr

/-- Lines 335-336: insert `to_order` of every historical event into the
fresh set. -/
def initialOrders (past : List LogOrder) : List OnChainOrder :=
  past.foldl (fun acc l => acc.insert l.to_order) []

/-- Lines 339-341: remove every tracked order whose reported filled
amount equals its `amount_get`. -/
def pruneFilled (filled : OnChainOrder → Wad) (s : List OnChainOrder) :
    List OnChainOrder :=
  s.filter (fun o => filled o != o.amount_get)

/-- Source `EtherDelta.active_onchain_orders` (lines 329-343), returning the
new tracker state, the returned list and the trace of side effects. On
the first call it subscribes to `Order` events, then backfills from the
hard-coded 1,000,000-block lookback; every call then prunes fully
filled (or cancelled) orders and returns the rest. -/
def active_onchain_orders (env : ChainEnv) (st : TrackerState) :
    TrackerState × List OnChainOrder × List TrackerAct :=
  match st with
  | none =>
      let s0 := initialOrders env.pastOrders
      let s1 := pruneFilled env.filled s0
      (some s1, s1, [.subscribeOrders, .fetchPastEvents 1000000])
  | some s =>
      let s1 := pruneFilled env.filled s
      (some s1, s1, [])

/-- The handler registered on line 334: a delivered `Order` event adds
`to_order` of the log to the tracked set (the handler exists only once
the set does). -/
def on_order_event (st : TrackerState) (l : LogOrder) : TrackerState :=
  match st with
  | none => none
  | some s => some (s.insert l.to_order)

/-- Source `EtherDelta.place_order_onchain` (lines 345-390): submit the order
transaction (its outcome supplied as `result`); if a receipt came back
and the tracker is initialized, add the new order to the tracked set. -/
def place_order_onchain (result : Option Receipt) (nonce : Nat)
    (defaultAccount : Address) (st : TrackerState) (token_get : Address)
    (amount_get : Wad) (token_give : Address) (amount_give : Wad)
    (expires : Nat) : TrackerState × Option Receipt :=
  let onchain_order : OnChainOrder :=
    { token_get := token_get, amount_get := amount_get,
      token_give := token_give, amount_give := amount_give,
      expires := expires, nonce := nonce, user := defaultAccount }
  match result, st with
  | some rcpt, some s => (some (s.insert onchain_order), some rcpt)
  | _, _ => (st, result)

/-! ## Signature-accepting contract calls (both order variants) -/

/-- The `Order` argument accepted by `amount_available`, `amount_filled`,
`trade`, `can_trade` and `cancel_order`: either variant. -/
inductive Order where
  | onChain (o : OnChainOrder)
  | offChain (o : OffChainOrder)
deriving DecidableEq, Repr

def Order.token_get : Order → Address
  | .onChain o => o.token_get
  | .offChain o => o.token_get

def Order.amount_get : Order → Wad
  | .onChain o => o.amount_get
  | .offChain o => o.amount_get

def Order.token_give : Order → Address
  | .onChain o => o.token_give
  | .offChain o => o.token_give

def Order.amount_give : Order → Wad
  | .onChain o => o.amount_give
  | .offChain o => o.amount_give

def Order.expires : Order → Nat
  | .onChain o => o.expires
  | .offChain o => o.expires

def Order.nonce : Order → Nat
  | .onChain o => o.nonce
  | .offChain o => o.nonce

def Order.user : Order → Address
  | .onChain o => o.user
  | .offChain o => o.user

/-- The `hasattr(order, 'v')` dispatch: the `v` attribute when present. -/
def Order.vOpt : Order → Option Nat
  | .onChain _ => none
  | .offChain o => some o.v

/-- The `hasattr(order, 'r')` dispatch: the `r` attribute when present. -/
def Order.rOpt : Order → Option (List Nat)
  | .onChain _ => none
  | .offChain o => some o.r

/-- The `hasattr(order, 's')` dispatch: the `s` attribute when present. -/
def Order.sOpt : Order → Option (List Nat)
  | .onChain _ => none
  | .offChain o => some o.s

/-- Argument tuple of the `availableVolume` / `amountFilled` contract
calls. -/
structure VolumeCall where
  token_get : Address
  amount_get : Nat
  token_give : Address
  amount_give : Nat
  expires : Nat
  nonce : Nat
  user : Address
  v : Nat
  r : List Nat
  s : List Nat
deriving DecidableEq, Repr

/-- Source `EtherDelta.amount_available` (lines 457-466): the arguments passed
to `availableVolume`, with `order.v if hasattr(order, 'v') else 0` and
empty bytes for absent `r`/`s`. -/
def amount_available_call (order : Order) : VolumeCall :=
  { token_get := order.token_get, amount_get := order.amount_get.value,
    token_give := order.token_give, amount_give := order.amount_give.value,
    expires := order.expires, nonce := order.nonce, user := order.user,
    v := order.vOpt.getD 0, r := order.rOpt.getD [], s := order.sOpt.getD [] }

/-- Source `EtherDelta.amount_filled` (lines 484-493): the arguments passed to
`amountFilled`, same dispatch as `amount_available`. -/
def amount_filled_call (order : Order) : VolumeCall :=
  { token_get := order.token_get, amount_get := order.amount_get.value,
    token_give := order.token_give, amount_give := order.amount_give.value,
    expires := order.expires, nonce := order.nonce, user := order.user,
    v := order.vOpt.getD 0, r := order.rOpt.getD [], s := order.sOpt.getD [] }

/-- Argument tuple of the `trade` contract call. -/
structure TradeCall where
  token_get : Address
  amount_get : Nat
  token_give : Address
  amount_give : Nat
  expires : Nat
  nonce : Nat
  user : Address
  v : Nat
  r : List Nat
  s : List Nat
  amount : Nat
deriving DecidableEq, Repr

/-- Source `EtherDelta.trade` (lines 520-530): the arguments passed to the
`trade` transaction. -/
def trade_call (order : Order) (amount : Wad) : TradeCall :=
  { token_get := order.token_get, amount_get := order.amount_get.value,
    token_give := order.token_give, amount_give := order.amount_give.value,
    expires := order.expires, nonce := order.nonce, user := order.user,
    v := order.vOpt.getD 0, r := order.rOpt.getD [], s := order.sOpt.getD [],
    amount := amount.value }

/-- Argument tuple of the `testTrade` contract call. -/
structure TestTradeCall where
  token_get : Address
  amount_get : Nat
  token_give : Address
  amount_give : Nat
  expires : Nat
  nonce : Nat
  user : Address
  v : Nat
  r : List Nat
  s : List Nat
  amount : Nat
  sender : Address
deriving DecidableEq, Repr

/-- Source `EtherDelta.can_trade` (lines 548-559): the arguments passed to
`testTrade`, ending with the would-be taker (`defaultAccount`). -/
def can_trade_call (order : Order) (amount : Wad) (sender : Address) : TestTradeCall :=
  { token_get := order.token_get, amount_get := order.amount_get.value,
    token_give := order.token_give, amount_give := order.amount_give.value,
    expires := order.expires, nonce := order.nonce, user := order.user,
    v := order.vOpt.getD 0, r := order.rOpt.getD [], s := order.sOpt.getD [],
    amount := amount.value, sender := sender }

/-- Argument tuple of the `cancelOrder` contract call (no `user`
argument). -/
structure CancelCall where
  token_get : Address
  amount_get : Nat
  token_give : Address
  amount_give : Nat
  expires : Nat
  nonce : Nat
  v : Nat
  r : List Nat
  s : List Nat
deriving DecidableEq, Repr

/-- Source `EtherDelta.cancel_order` (lines 578-586): the arguments passed to
the `cancelOrder` transaction. -/
def cancel_order_call (order : Order) : CancelCall :=
  { token_get := order.token_get, amount_get := order.amount_get.value,
    token_give := order.token_give, amount_give := order.amount_give.value,
    expires := order.expires, nonce := order.nonce,
    v := order.vOpt.getD 0, r := order.rOpt.getD [], s := order.sOpt.getD [] }

/-! ## Dynamic typing model for precondition checks -/

/-- A dynamically typed Python value handed to a public operation. -/
inductive PyVal where
  | wad (value : Nat)
  | addr (a : Nat)
  | intVal (n : Nat)
  | strVal (s : String)
  | noneVal
deriving DecidableEq, Repr

/-- Python exceptions relevant to argument validation. -/
inductive PyErr where
  | assertionError
  | attributeError
  | encodingError
deriving DecidableEq, Repr

/-- A network interaction an operation may perform. -/
inductive NetAct where
  | rpcTransact
  | rpcCall
  | rpcSign
  | httpPost
deriving DecidableEq, Repr

def PyVal.isWad : PyVal → Bool
  | .wad _ => true
  | _ => false

def PyVal.isAddr : PyVal → Bool
  | .addr _ => true
  | _ => false

def PyVal.isInt : PyVal → Bool
  | .intVal _ => true
  | _ => false

/-- Reading `.address` off a dynamic value (raises `AttributeError`
unless it is an `Address`). -/
def PyVal.attrAddress : PyVal → Except PyErr Nat
  | .addr a => .ok a
  | _ => .error .attributeError

/-- Reading `.value` off a dynamic value (raises `AttributeError`
unless it is a `Wad`). -/
def PyVal.attrValue : PyVal → Except PyErr Nat
  | .wad v => .ok v
  | _ => .error .attributeError

/-- ABI-encoding a dynamic value as an unsigned integer (raises unless
it is an `int`). -/
def PyVal.asUint : PyVal → Except PyErr Nat
  | .intVal n => .ok n
  | _ => .error .encodingError

/-- The five order arguments marshalled in source order: this is both
the argument evaluation of the `order(...)` transaction lambda
(lines 374-376) and the hash-input encoding of `place_order_offchain`
(lines 425-431); the first ill-typed argument raises. -/
def marshalOrderArgs (token_get amount_get token_give amount_give expires : PyVal) :
    Except PyErr (List Nat) :=
  match token_get.attrAddress with
  | .error e => .error e
  | .ok a1 =>
    match amount_get.attrValue with
    | .error e => .error e
    | .ok v1 =>
      match token_give.attrAddress with
      | .error e => .error e
      | .ok a2 =>
        match amount_give.attrValue with
        | .error e => .error e
        | .ok v2 =>
          match expires.asUint with
          | .error e => .error e
          | .ok ex => .ok [a1, v1, a2, v2, ex]

/-- Whether the five order arguments have the expected types. -/
def orderArgsWellTyped (token_get amount_get token_give amount_give expires : PyVal) : Bool :=
  token_get.isAddr && amount_get.isWad && token_give.isAddr &&
  amount_give.isWad && expires.isInt

/-- Modelled from the spec: `Contract._transact` (in `api/__init__.py`,
not under `src/`) submits a state-changing invocation over the chain
RPC; the transaction payload is built by evaluating the marshalled
arguments, so an argument that fails to marshal raises before the
network send. -/
def transactSend (marshalled : Except PyErr (List Nat)) :
    List NetAct × Except PyErr Unit :=
  match marshalled with
  | .error e => ([], .error e)
  | .ok _ => ([.rpcTransact], .ok ())

/-- Source `EtherDelta.deposit` (lines 235-247) over a dynamic argument:
`assert isinstance(amount, Wad)` precedes the transaction. -/
def deposit_dyn (amount : PyVal) : List NetAct × Except PyErr Unit :=
  if amount.isWad then ([.rpcTransact], .ok ()) else ([], .error .assertionError)

/-- Source `EtherDelta.place_order_onchain` (lines 345-390) over dynamic
arguments: no explicit validation; the arguments are marshalled by the
transaction lambda, then the transaction is sent. -/
def place_order_onchain_dyn (token_get amount_get token_give amount_give expires : PyVal) :
    List NetAct × Except PyErr Unit :=
  transactSend (marshalOrderArgs token_get amount_get token_give amount_give expires)

/-- Source `EtherDelta.place_order_offchain` (lines 392-442) over dynamic
arguments: the hash-input encoding (which evaluates every order
argument) precedes both the `eth_sign` RPC and the relay POST. -/
def place_order_offchain_dyn (token_get amount_get token_give amount_give expires : PyVal) :
    List NetAct × Except PyErr Unit :=
  match marshalOrderArgs token_get amount_get token_give amount_give expires with
  | .error e => ([], .error e)
  | .ok _ => ([.rpcSign, .httpPost], .ok ())

/-! ## Concrete sample data for witnesses -/

/-- A sample tracked order. -/
def sampleOrder : OnChainOrder :=
  { token_get := ⟨1⟩, amount_get := ⟨5⟩, token_give := ⟨2⟩,
    amount_give := ⟨3⟩, expires := 100, nonce := 42, user := ⟨9⟩ }

/-- A sample decoded `Order` event whose order is `sampleOrder`. -/
def sampleLog : LogOrder :=
  { tokenGet := ⟨1⟩, amountGet := ⟨5⟩, tokenGive := ⟨2⟩,
    amountGive := ⟨3⟩, expires := 100, nonce := 42, user := ⟨9⟩ }

/-- A chain environment reporting `sampleOrder` as fully filled and a
single historical event. -/
def fullFillEnv : ChainEnv :=
  { filled := fun o => o.amount_get, pastOrders := [sampleLog] }

/-- A chain environment reporting nothing filled. -/
def noFillEnv : ChainEnv :=
  { filled := fun _ => ⟨0⟩, pastOrders := [sampleLog] }

/-- A second chain environment with no history, reporting everything
filled. -/
def emptyHistoryEnv : ChainEnv :=
  { filled := fun o => o.amount_get, pastOrders := [] }

/-- An off-chain placement environment whose relay POST times out. -/
def timeoutEnv : OffchainEnv :=
  { contractAddress := ⟨11⟩, defaultAccount := ⟨12⟩, nonce := 7,
    sha256 := fun _ => [0], sign := fun _ => List.replicate 65 1,
    post := .timeout }

/-- An off-chain placement environment whose relay answers 200 with a
success body. -/
def successEnv : OffchainEnv :=
  { contractAddress := ⟨11⟩, defaultAccount := ⟨12⟩, nonce := 7,
    sha256 := fun _ => [0], sign := fun _ => List.replicate 65 1,
    post := .response 200 "the answer was \"success\" indeed" }

/-- An off-chain placement environment whose relay answers 200 with a
non-success body. -/
def failBodyEnv : OffchainEnv :=
  { contractAddress := ⟨11⟩, defaultAccount := ⟨12⟩, nonce := 7,
    sha256 := fun _ => [0], sign := fun _ => List.replicate 65 1,
    post := .response 200 "rejected" }

/-! ## Theorems -/

theorem beBytes_length (n v : Nat) : (beBytes n v).length = n := by
  induction n generalizing v with
  | zero => rfl
  | succ n ih => simp [beBytes, ih]

theorem beBytes_add (m n v : Nat) :
    beBytes (m + n) v = beBytes m (v / 256 ^ n) ++ beBytes n (v % 256 ^ n) := by
  induction n generalizing v with
  | zero => simp [beBytes, Nat.mod_one]
  | succ n ih =>
      have h1 : v / 256 / 256 ^ n = v / 256 ^ (n + 1) := by
        rw [Nat.div_div_eq_div_mul, pow_succ, mul_comm]
      have h2 : v / 256 % 256 ^ n = v % 256 ^ (n + 1) / 256 := by
        rw [pow_succ, mul_comm, Nat.mod_mul_right_div_self]
      have h3 : v % 256 ^ (n + 1) % 256 = v % 256 := by
        have : (256 : Nat) ∣ 256 ^ (n + 1) := dvd_pow_self 256 (Nat.succ_ne_zero n)
        exact Nat.mod_mod_of_dvd v this
      show beBytes (m + n) (v / 256) ++ [v % 256] = _
      rw [ih (v / 256), h1, h2]
      show _ = beBytes m (v / 256 ^ (n + 1)) ++ (beBytes n (v % 256 ^ (n + 1) / 256) ++ [v % 256 ^ (n + 1) % 256])
      rw [h3, List.append_assoc]

/-- For an in-range address value, dropping the 12 padding bytes of the
32-byte ABI word leaves exactly the 20-byte big-endian encoding. -/
theorem encode_address_eq (a : Address) (h : a.address < 256 ^ 20) :
    encode_address a = beBytes 20 a.address := by
  unfold encode_address
  have h32 : (32 : Nat) = 12 + 20 := rfl
  rw [h32, beBytes_add 12 20 a.address]
  rw [List.drop_append_of_le_length (by simp [beBytes_length])]
  have hnil : List.drop 12 (beBytes 12 (a.address / 256 ^ 20)) = [] := by
    have h12 := beBytes_length 12 (a.address / 256 ^ 20)
    rw [← h12]
    exact List.drop_length _
  rw [Nat.mod_eq_of_lt h] at *
  simp only [hnil, List.nil_append]

/-- C1: the canonical signing message of an off-chain order is exactly
the fixed-order concatenation of the contract address (20 bytes, the
low 20 bytes of the 32-byte ABI word), `token_get` (20 bytes),
`amount_get` (256-bit big-endian), `token_give` (20 bytes),
`amount_give`, `expires` and `nonce` (each 256-bit big-endian); the
signed digest is the SHA-256 hash of that message; and the message is a
deterministic function of (contract address, order fields, nonce). -/
theorem C1_canonical_message (contract token_get : Address) (amount_get : Wad)
    (token_give : Address) (amount_give : Wad) (expires nonce : Nat)
    (hc : contract.address < 256 ^ 20) (h1 : token_get.address < 256 ^ 20)
    (h2 : token_give.address < 256 ^ 20) :
    canonicalMessage contract token_get amount_get token_give amount_give expires nonce
      = specMessage contract token_get amount_get token_give amount_give expires nonce
    ∧ (∀ env : OffchainEnv, env.contractAddress = contract → env.nonce = nonce →
        place_order_offchain_digest env token_get amount_get token_give amount_give expires
          = env.sha256 (canonicalMessage contract token_get amount_get token_give
              amount_give expires nonce))
    ∧ (∀ c2 t2 : Address, ∀ a2 : Wad, ∀ g2 : Address, ∀ v2 : Wad, ∀ e2 n2 : Nat,
        c2 = contract → t2 = token_get → a2 = amount_get → g2 = token_give →
        v2 = amount_give → e2 = expires → n2 = nonce →
        canonicalMessage c2 t2 a2 g2 v2 e2 n2
          = canonicalMessage contract token_get amount_get token_give amount_give
              expires nonce) := by
  refine ⟨?_, ?_, ?_⟩
  · unfold canonicalMessage specMessage
    rw [encode_address_eq contract hc, encode_address_eq token_get h1,
        encode_address_eq token_give h2]
    rfl
  · intro env hca hn
    subst hca hn
    rfl
  · intro c2 t2 a2 g2 v2 e2 n2 hc2 ht2 ha2 hg2 hv2 he2 hn2
    subst hc2 ht2 ha2 hg2 hv2 he2 hn2
    rfl

theorem C1_canonical_message_witness :
    (1 : Nat) < 256 ^ 20 ∧ (2 : Nat) < 256 ^ 20 ∧ (4 : Nat) < 256 ^ 20 ∧
    canonicalMessage ⟨1⟩ ⟨2⟩ ⟨3⟩ ⟨4⟩ ⟨5⟩ 6 7 = specMessage ⟨1⟩ ⟨2⟩ ⟨3⟩ ⟨4⟩ ⟨5⟩ 6 7 :=
  ⟨by norm_num, by norm_num, by norm_num,
   (C1_canonical_message ⟨1⟩ ⟨2⟩ ⟨3⟩ ⟨4⟩ ⟨5⟩ 6 7
     (by norm_num) (by norm_num) (by norm_num)).1⟩

/-- C6: two `OnChainOrder`s are equal under `__eq__` exactly when all
seven fields coincide, and orders with identical fields have identical
hash values. -/
theorem C6_onchain_order_eq_hash (o1 o2 : OnChainOrder) :
    (o1.eqPy (.onChain o2) = true ↔
      (o1.token_get = o2.token_get ∧ o1.amount_get = o2.amount_get ∧
       o1.token_give = o2.token_give ∧ o1.amount_give = o2.amount_give ∧
       o1.expires = o2.expires ∧ o1.nonce = o2.nonce ∧ o1.user = o2.user))
    ∧ ((o1.token_get = o2.token_get ∧ o1.amount_get = o2.amount_get ∧
        o1.token_give = o2.token_give ∧ o1.amount_give = o2.amount_give ∧
        o1.expires = o2.expires ∧ o1.nonce = o2.nonce ∧ o1.user = o2.user) →
       o1.pyHash = o2.pyHash) := by
  constructor
  · simp [OnChainOrder.eqPy, Bool.and_eq_true, beq_iff_eq, and_assoc]
  · rintro ⟨h1, h2, h3, h4, h5, h6, h7⟩
    unfold OnChainOrder.pyHash
    rw [h1, h2, h3, h4, h5, h6, h7]

theorem C6_onchain_order_eq_hash_witness :
    sampleOrder.eqPy (.onChain sampleOrder) = true ∧
    sampleOrder.pyHash = sampleOrder.pyHash :=
  ⟨(C6_onchain_order_eq_hash sampleOrder sampleOrder).1.mpr
     ⟨rfl, rfl, rfl, rfl, rfl, rfl, rfl⟩,
   (C6_onchain_order_eq_hash sampleOrder sampleOrder).2
     ⟨rfl, rfl, rfl, rfl, rfl, rfl, rfl⟩⟩

/-- C9: equality across order variants, and against non-order values,
is always `False` (never an exception), even for identical fields. -/
theorem C9_cross_variant_eq_false (x : OnChainOrder) (y : OffChainOrder) :
    x.eqPy (.offChain y) = false ∧ y.eqPy (.onChain x) = false ∧
    x.eqPy .nonOrder = false ∧ y.eqPy .nonOrder = false :=
  ⟨rfl, rfl, rfl, rfl⟩

/-- C7: every signature-accepting operation passes `v = 0` and empty
`r`, `s` to the contract for an `OnChainOrder`, and the order's own
`v`, `r`, `s` for an `OffChainOrder`. -/
theorem C7_signature_dispatch :
    (∀ o : OnChainOrder,
      (amount_available_call (.onChain o)).v = 0 ∧
      (amount_available_call (.onChain o)).r = [] ∧
      (amount_available_call (.onChain o)).s = [] ∧
      (amount_filled_call (.onChain o)).v = 0 ∧
      (amount_filled_call (.onChain o)).r = [] ∧
      (amount_filled_call (.onChain o)).s = [] ∧
      (∀ amt : Wad, (trade_call (.onChain o) amt).v = 0 ∧
        (trade_call (.onChain o) amt).r = [] ∧
        (trade_call (.onChain o) amt).s = []) ∧
      (∀ amt : Wad, ∀ sender : Address,
        (can_trade_call (.onChain o) amt sender).v = 0 ∧
        (can_trade_call (.onChain o) amt sender).r = [] ∧
        (can_trade_call (.onChain o) amt sender).s = []) ∧
      (cancel_order_call (.onChain o)).v = 0 ∧
      (cancel_order_call (.onChain o)).r = [] ∧
      (cancel_order_call (.onChain o)).s = [])
    ∧ (∀ o : OffChainOrder,
      (amount_available_call (.offChain o)).v = o.v ∧
      (amount_available_call (.offChain o)).r = o.r ∧
      (amount_available_call (.offChain o)).s = o.s ∧
      (amount_filled_call (.offChain o)).v = o.v ∧
      (amount_filled_call (.offChain o)).r = o.r ∧
      (amount_filled_call (.offChain o)).s = o.s ∧
      (∀ amt : Wad, (trade_call (.offChain o) amt).v = o.v ∧
        (trade_call (.offChain o) amt).r = o.r ∧
        (trade_call (.offChain o) amt).s = o.s) ∧
      (∀ amt : Wad, ∀ sender : Address,
        (can_trade_call (.offChain o) amt sender).v = o.v ∧
        (can_trade_call (.offChain o) amt sender).r = o.r ∧
        (can_trade_call (.offChain o) amt sender).s = o.s) ∧
      (cancel_order_call (.offChain o)).v = o.v ∧
      (cancel_order_call (.offChain o)).r = o.r ∧
      (cancel_order_call (.offChain o)).s = o.s) :=
  ⟨fun o => ⟨rfl, rfl, rfl, rfl, rfl, rfl,
     fun amt => ⟨rfl, rfl, rfl⟩, fun amt sender => ⟨rfl, rfl, rfl⟩,
     rfl, rfl, rfl⟩,
   fun o => ⟨rfl, rfl, rfl, rfl, rfl, rfl,
     fun amt => ⟨rfl, rfl, rfl⟩, fun amt sender => ⟨rfl, rfl, rfl⟩,
     rfl, rfl, rfl⟩⟩

theorem insertFold_mem_mono (l : List LogOrder) (acc : List OnChainOrder)
    (a : OnChainOrder) (h : a ∈ acc) :
    a ∈ l.foldl (fun acc x => acc.insert x.to_order) acc := by
  induction l generalizing acc with
  | nil => exact h
  | cons x xs ih => exact ih _ (List.mem_insert_of_mem h)

theorem mem_initialOrders (past : List LogOrder) (e : LogOrder) (h : e ∈ past) :
    e.to_order ∈ initialOrders past := by
  unfold initialOrders
  generalize hacc : ([] : List OnChainOrder) = acc
  clear hacc
  induction past generalizing acc with
  | nil => cases h
  | cons x xs ih =>
      rcases List.mem_cons.mp h with h | h
      · subst h
        exact insertFold_mem_mono xs _ _ (List.mem_insert_self _ _)
      · exact ih h _

/-- C2: on a query of an initialized tracker, a tracked order whose
reported filled amount equals its `amount_get` is removed from the set
and absent from the returned list; one whose filled amount is strictly
below `amount_get` stays in both. -/
theorem C2_tracker_pruning (env : ChainEnv) (s : List OnChainOrder)
    (o : OnChainOrder) (hmem : o ∈ s) :
    (active_onchain_orders env (some s)).1 = some (pruneFilled env.filled s)
    ∧ (env.filled o = o.amount_get →
        o ∉ pruneFilled env.filled s ∧
        o ∉ (active_onchain_orders env (some s)).2.1)
    ∧ ((env.filled o).value < o.amount_get.value →
        o ∈ pruneFilled env.filled s ∧
        o ∈ (active_onchain_orders env (some s)).2.1) := by
  refine ⟨rfl, ?_, ?_⟩
  · intro hfull
    have hnot : o ∉ pruneFilled env.filled s := by
      intro hin
      rcases (List.mem_filter.mp hin) with ⟨_, hp⟩
      rw [hfull] at hp
      simp at hp
    exact ⟨hnot, hnot⟩
  · intro hlt
    have hne : env.filled o ≠ o.amount_get := by
      intro heq
      rw [heq] at hlt
      exact lt_irrefl _ hlt
    have hin : o ∈ pruneFilled env.filled s :=
      List.mem_filter.mpr ⟨hmem, by simp [hne]⟩
    exact ⟨hin, hin⟩

theorem C2_tracker_pruning_witness :
    (sampleOrder ∈ [sampleOrder] ∧
     fullFillEnv.filled sampleOrder = sampleOrder.amount_get ∧
     sampleOrder ∉ (active_onchain_orders fullFillEnv (some [sampleOrder])).2.1)
    ∧ (sampleOrder ∈ [sampleOrder] ∧
       (noFillEnv.filled sampleOrder).value < sampleOrder.amount_get.value ∧
       sampleOrder ∈ (active_onchain_orders noFillEnv (some [sampleOrder])).2.1) :=
  ⟨⟨by decide, rfl,
    ((C2_tracker_pruning fullFillEnv [sampleOrder] sampleOrder (by decide)).2.1 rfl).2⟩,
   ⟨by decide, by decide,
    ((C2_tracker_pruning noFillEnv [sampleOrder] sampleOrder (by decide)).2.2 (by decide)).2⟩⟩

/-- C4: when an on-chain placement succeeds (a receipt is returned) and
the tracker is initialized, the new order is inserted into the tracked
set at once; an immediate query (before any event delivery) returns it
as long as the contract does not report it fully filled; and a later
matching `Order` event leaves the set unchanged (no duplicate). -/
theorem C4_local_write_visibility (env : ChainEnv) (s : List OnChainOrder)
    (rcpt : Receipt) (nonce : Nat) (acct token_get : Address) (amount_get : Wad)
    (token_give : Address) (amount_give : Wad) (expires : Nat)
    (order : OnChainOrder)
    (horder : order = { token_get := token_get, amount_get := amount_get,
                        token_give := token_give, amount_give := amount_give,
                        expires := expires, nonce := nonce, user := acct })
    (st2 : TrackerState)
    (hst : st2 = (place_order_onchain (some rcpt) nonce acct (some s)
                    token_get amount_get token_give amount_give expires).1) :
    st2 = some (s.insert order)
    ∧ order ∈ s.insert order
    ∧ (env.filled order ≠ order.amount_get →
        order ∈ (active_onchain_orders env st2).2.1)
    ∧ (∀ l : LogOrder, l.to_order = order → on_order_event st2 l = st2) := by
  subst horder hst
  refine ⟨rfl, List.mem_insert_self _ _, ?_, ?_⟩
  · intro hne
    exact List.mem_filter.mpr ⟨List.mem_insert_self _ _, by simp [hne]⟩
  · intro l hl
    rw [show (place_order_onchain (some rcpt) nonce acct (some s)
          token_get amount_get token_give amount_give expires).1
        = some (s.insert l.to_order) by rw [hl]; rfl]
    show some ((s.insert l.to_order).insert l.to_order) = some (s.insert l.to_order)
    rw [List.insert_of_mem (List.mem_insert_self _ _)]

theorem C4_local_write_visibility_witness :
    sampleOrder ∈ List.insert sampleOrder []
    ∧ sampleOrder ∈ (active_onchain_orders noFillEnv
        (place_order_onchain (some ⟨0⟩) 42 ⟨9⟩ (some [])
          ⟨1⟩ ⟨5⟩ ⟨2⟩ ⟨3⟩ 100).1).2.1
    ∧ on_order_event (place_order_onchain (some ⟨0⟩) 42 ⟨9⟩ (some [])
        ⟨1⟩ ⟨5⟩ ⟨2⟩ ⟨3⟩ 100).1 sampleLog
      = (place_order_onchain (some ⟨0⟩) 42 ⟨9⟩ (some [])
          ⟨1⟩ ⟨5⟩ ⟨2⟩ ⟨3⟩ 100).1 :=
  ⟨(C4_local_write_visibility noFillEnv [] ⟨0⟩ 42 ⟨9⟩ ⟨1⟩ ⟨5⟩ ⟨2⟩ ⟨3⟩ 100
      sampleOrder rfl _ rfl).2.1,
   (C4_local_write_visibility noFillEnv [] ⟨0⟩ 42 ⟨9⟩ ⟨1⟩ ⟨5⟩ ⟨2⟩ ⟨3⟩ 100
      sampleOrder rfl _ rfl).2.2.1 (by decide),
   (C4_local_write_visibility noFillEnv [] ⟨0⟩ 42 ⟨9⟩ ⟨1⟩ ⟨5⟩ ⟨2⟩ ⟨3⟩ 100
      sampleOrder rfl _ rfl).2.2.2 sampleLog rfl⟩

/-- C10: `place_order_onchain` leaves the tracked set exactly unchanged
when the transaction yields no receipt or the tracker is uninitialized;
the order is inserted only when a receipt is returned and the tracker
is initialized. -/
theorem C10_place_order_onchain_atomic (result : Option Receipt) (nonce : Nat)
    (acct token_get : Address) (amount_get : Wad) (token_give : Address)
    (amount_give : Wad) (expires : Nat) (st : TrackerState) :
    (result = none →
      (place_order_onchain result nonce acct st
         token_get amount_get token_give amount_give expires).1 = st)
    ∧ (st = none →
      (place_order_onchain result nonce acct st
         token_get amount_get token_give amount_give expires).1 = st)
    ∧ (∀ rcpt s, result = some rcpt → st = some s →
      (place_order_onchain result nonce acct st
         token_get amount_get token_give amount_give expires).1
        = some (s.insert { token_get := token_get, amount_get := amount_get,
                           token_give := token_give, amount_give := amount_give,
                           expires := expires, nonce := nonce, user := acct })) := by
  refine ⟨?_, ?_, ?_⟩
  · intro h
    subst h
    cases st <;> rfl
  · intro h
    subst h
    cases result <;> rfl
  · intro rcpt s hr hs
    subst hr hs
    rfl

theorem C10_place_order_onchain_atomic_witness :
    (place_order_onchain none 42 ⟨9⟩ (some [sampleOrder]) ⟨1⟩ ⟨5⟩ ⟨2⟩ ⟨3⟩ 100).1
      = some [sampleOrder]
    ∧ (place_order_onchain (some ⟨0⟩) 42 ⟨9⟩ none ⟨1⟩ ⟨5⟩ ⟨2⟩ ⟨3⟩ 100).1 = none :=
  ⟨(C10_place_order_onchain_atomic none 42 ⟨9⟩ ⟨1⟩ ⟨5⟩ ⟨2⟩ ⟨3⟩ 100
      (some [sampleOrder])).1 rfl,
   (C10_place_order_onchain_atomic (some ⟨0⟩) 42 ⟨9⟩ ⟨1⟩ ⟨5⟩ ⟨2⟩ ⟨3⟩ 100 none).2.1 rfl⟩

/-- C5 counterexample: the lookback window of the backfill is NOT
caller-specified — `active_onchain_orders` takes no window argument and
always fetches past events with the hard-coded constant 1,000,000, as
the identical traces in two unrelated environments show. -/
theorem C5_counterexample :
    (active_onchain_orders noFillEnv none).2.2
      = [TrackerAct.subscribeOrders, TrackerAct.fetchPastEvents 1000000]
    ∧ (active_onchain_orders emptyHistoryEnv none).2.2
      = [TrackerAct.subscribeOrders, TrackerAct.fetchPastEvents 1000000] :=
  ⟨rfl, rfl⟩

/-- C5 (amended): on the first query the tracker registers the
live-event subscription BEFORE running the backfill, the backfill
fetches historical events over a fixed 1,000,000-block lookback window
and inserts each of them into the tracked set, and the
`Uninitialized → Initialized` transition is one-way. -/
theorem C5_init_subscribe_then_backfill (env : ChainEnv) (st : TrackerState) :
    (st = none →
      (active_onchain_orders env st).2.2
        = [TrackerAct.subscribeOrders, TrackerAct.fetchPastEvents 1000000]
      ∧ (∀ l ∈ env.pastOrders, l.to_order ∈ initialOrders env.pastOrders)
      ∧ (active_onchain_orders env st).1
          = some (pruneFilled env.filled (initialOrders env.pastOrders)))
    ∧ (active_onchain_orders env st).1 ≠ none := by
  constructor
  · intro h
    subst h
    exact ⟨rfl, fun l hl => mem_initialOrders _ l hl, rfl⟩
  · cases st <;> simp [active_onchain_orders]

theorem C5_init_subscribe_then_backfill_witness :
    (active_onchain_orders noFillEnv none).2.2
      = [TrackerAct.subscribeOrders, TrackerAct.fetchPastEvents 1000000]
    ∧ sampleLog.to_order ∈ initialOrders noFillEnv.pastOrders :=
  ⟨((C5_init_subscribe_then_backfill noFillEnv none).1 rfl).1,
   ((C5_init_subscribe_then_backfill noFillEnv none).1 rfl).2.1 sampleLog (by decide)⟩

/-- C3 counterexample: a relay POST timeout does NOT yield a no-result
value — `requests.post(..., timeout=15)` raises, and the exception
escapes `place_order_offchain`; and the status code is ignored, so a
non-2xx response whose body contains `"success"` still returns the
completed order. -/
theorem C3_counterexample :
    place_order_offchain timeoutEnv ⟨3⟩ ⟨4⟩ ⟨5⟩ ⟨6⟩ 8
      = Except.error RelayErr.timeoutRaised
    ∧ place_order_offchain
        { timeoutEnv with post := .response 500 "ack \"success\"" } ⟨3⟩ ⟨4⟩ ⟨5⟩ ⟨6⟩ 8
      = Except.ok (some
          { token_get := ⟨3⟩, amount_get := ⟨4⟩, token_give := ⟨5⟩,
            amount_give := ⟨6⟩, expires := 8, nonce := 7, user := ⟨12⟩,
            v := 1, r := List.replicate 32 1, s := List.replicate 32 1 }) :=
  ⟨rfl, rfl⟩

/-- C3 (amended): a relay timeout raises (the Timeout exception
propagates); any received response, whatever its status code, yields
`None` when its body lacks the substring `"success"`, and yields the
completed `OffChainOrder` exactly when the body contains it. -/
theorem C3_relay_outcomes (env : OffchainEnv) (token_get : Address)
    (amount_get : Wad) (token_give : Address) (amount_give : Wad) (expires : Nat) :
    (env.post = .timeout →
      place_order_offchain env token_get amount_get token_give amount_give expires
        = Except.error RelayErr.timeoutRaised)
    ∧ (∀ status text, env.post = .response status text →
        ((∃ o : OffChainOrder,
           place_order_offchain env token_get amount_get token_give amount_give expires
             = Except.ok (some o))
          ↔ containsSuccess text = true)
        ∧ (containsSuccess text = false →
           place_order_offchain env token_get amount_get token_give amount_give expires
             = Except.ok none)) := by
  constructor
  · intro h
    simp [place_order_offchain, h]
  · intro status text h
    cases hc : containsSuccess text <;>
      simp [place_order_offchain, h, hc]

theorem C3_relay_outcomes_witness :
    containsSuccess "the answer was \"success\" indeed" = true
    ∧ (∃ o : OffChainOrder,
        place_order_offchain successEnv ⟨3⟩ ⟨4⟩ ⟨5⟩ ⟨6⟩ 8 = Except.ok (some o))
    ∧ containsSuccess "rejected" = false
    ∧ place_order_offchain failBodyEnv ⟨3⟩ ⟨4⟩ ⟨5⟩ ⟨6⟩ 8 = Except.ok none :=
  ⟨by decide,
   (((C3_relay_outcomes successEnv ⟨3⟩ ⟨4⟩ ⟨5⟩ ⟨6⟩ 8).2 200
      "the answer was \"success\" indeed" rfl).1).mpr (by decide),
   by decide,
   ((C3_relay_outcomes failBodyEnv ⟨3⟩ ⟨4⟩ ⟨5⟩ ⟨6⟩ 8).2 200 "rejected" rfl).2
     (by decide)⟩

theorem attrAddress_err (v : PyVal) (h : v.isAddr = false) :
    v.attrAddress = Except.error PyErr.attributeError := by
  cases v <;> simp_all [PyVal.isAddr, PyVal.attrAddress]

theorem attrAddress_okEx (v : PyVal) (h : v.isAddr = true) :
    ∃ n, v.attrAddress = Except.ok n := by
  cases v <;> simp_all [PyVal.isAddr, PyVal.attrAddress]

theorem attrValue_err (v : PyVal) (h : v.isWad = false) :
    v.attrValue = Except.error PyErr.attributeError := by
  cases v <;> simp_all [PyVal.isWad, PyVal.attrValue]

theorem attrValue_okEx (v : PyVal) (h : v.isWad = true) :
    ∃ n, v.attrValue = Except.ok n := by
  cases v <;> simp_all [PyVal.isWad, PyVal.attrValue]

theorem asUint_err (v : PyVal) (h : v.isInt = false) :
    v.asUint = Except.error PyErr.encodingError := by
  cases v <;> simp_all [PyVal.isInt, PyVal.asUint]

theorem marshalOrderArgs_illTyped (tg ag tv av ex : PyVal)
    (h : orderArgsWellTyped tg ag tv av ex = false) :
    ∃ e, marshalOrderArgs tg ag tv av ex = Except.error e := by
  unfold marshalOrderArgs
  cases htg : tg.isAddr with
  | false =>
      rw [attrAddress_err tg htg]
      exact ⟨_, rfl⟩
  | true =>
      obtain ⟨a1, ha1⟩ := attrAddress_okEx tg htg
      rw [ha1]
      cases hag : ag.isWad with
      | false =>
          rw [attrValue_err ag hag]
          exact ⟨_, rfl⟩
      | true =>
          obtain ⟨v1, hv1⟩ := attrValue_okEx ag hag
          rw [hv1]
          cases htv : tv.isAddr with
          | false =>
              rw [attrAddress_err tv htv]
              exact ⟨_, rfl⟩
          | true =>
              obtain ⟨a2, ha2⟩ := attrAddress_okEx tv htv
              rw [ha2]
              cases hav : av.isWad with
              | false =>
                  rw [attrValue_err av hav]
                  exact ⟨_, rfl⟩
              | true =>
                  obtain ⟨v2, hv2⟩ := attrValue_okEx av hav
                  rw [hv2]
                  cases hex : ex.isInt with
                  | false =>
                      rw [asUint_err ex hex]
                      exact ⟨_, rfl⟩
                  | true =>
                      exfalso
                      unfold orderArgsWellTyped at h
                      rw [htg, hag, htv, hav, hex] at h
                      simp at h

/-- C8: an ill-typed argument makes the operation fail synchronously,
with no network interaction at all (no RPC, no HTTP POST): `deposit`
through its `isinstance` assertion, `place_order_onchain` because the
transaction arguments fail to marshal before the send,
`place_order_offchain` because the hash-input encoding precedes the
sign RPC and the relay POST. -/
theorem C8_illtyped_rejected_before_network
    (amount token_get amount_get token_give amount_give expires : PyVal) :
    (amount.isWad = false →
      deposit_dyn amount = ([], Except.error PyErr.assertionError))
    ∧ (orderArgsWellTyped token_get amount_get token_give amount_give expires = false →
      ∃ e, place_order_onchain_dyn token_get amount_get token_give amount_give expires
        = ([], Except.error e))
    ∧ (orderArgsWellTyped token_get amount_get token_give amount_give expires = false →
      ∃ e, place_order_offchain_dyn token_get amount_get token_give amount_give expires
        = ([], Except.error e)) := by
  refine ⟨?_, ?_, ?_⟩
  · intro h
    simp [deposit_dyn, h]
  · intro h
    obtain ⟨e, he⟩ := marshalOrderArgs_illTyped _ _ _ _ _ h
    refine ⟨e, ?_⟩
    unfold place_order_onchain_dyn transactSend
    rw [he]
  · intro h
    obtain ⟨e, he⟩ := marshalOrderArgs_illTyped _ _ _ _ _ h
    refine ⟨e, ?_⟩
    unfold place_order_offchain_dyn
    rw [he]

theorem C8_illtyped_rejected_before_network_witness :
    PyVal.isWad (.intVal 5) = false
    ∧ deposit_dyn (.intVal 5) = ([], Except.error PyErr.assertionError)
    ∧ orderArgsWellTyped (.strVal "x") (.wad 1) (.addr 2) (.wad 3) (.intVal 4) = false
    ∧ (∃ e, place_order_onchain_dyn (.strVal "x") (.wad 1) (.addr 2) (.wad 3) (.intVal 4)
        = ([], Except.error e))
    ∧ (∃ e, place_order_offchain_dyn (.strVal "x") (.wad 1) (.addr 2) (.wad 3) (.intVal 4)
        = ([], Except.error e)) :=
  ⟨by decide,
   (C8_illtyped_rejected_before_network (.intVal 5) (.strVal "x") (.wad 1)
      (.addr 2) (.wad 3) (.intVal 4)).1 (by decide),
   by decide,
   (C8_illtyped_rejected_before_network (.intVal 5) (.strVal "x") (.wad 1)
      (.addr 2) (.wad 3) (.intVal 4)).2.1 (by decide),
   (C8_illtyped_rejected_before_network (.intVal 5) (.strVal "x") (.wad 1)
      (.addr 2) (.wad 3) (.intVal 4)).2.2 (by decide)⟩

/-- C4 counterexample: the frozen claim's unconditional "a query of
active_onchain_orders before any event delivery includes that order"
fails. Placing an order with `amount_get = 0` (receipt returned,
tracker initialized) inserts it into the tracked set, but the contract
reports `amountFilled = 0 = amount_get` for it, so the read-time prune
(lines 339-341) removes it: the immediate query returns the empty
list. -/
theorem C4_counterexample :
    (place_order_onchain (some ⟨0⟩) 42 ⟨9⟩ (some []) ⟨1⟩ ⟨0⟩ ⟨2⟩ ⟨3⟩ 100).1
      = some [{ token_get := ⟨1⟩, amount_get := ⟨0⟩, token_give := ⟨2⟩,
                amount_give := ⟨3⟩, expires := 100, nonce := 42, user := ⟨9⟩ }]
    ∧ (active_onchain_orders noFillEnv
        (place_order_onchain (some ⟨0⟩) 42 ⟨9⟩ (some []) ⟨1⟩ ⟨0⟩ ⟨2⟩ ⟨3⟩ 100).1).2.1
      = [] :=
  ⟨rfl, rfl⟩
